/-
  Verification of the AI-Debate-Advisor orchestration engine.

  Shallow embedding of `src/main.py` and `src/streamlit_debate.py`.
  The two external collaborators are modelled as function parameters:
  the Content Generator as `gen : String -> Except GErr String` (it may
  fail), the Evidence Provider's sub-actions (CollectLinks,
  WebBrowseAndSummarize, ConductResearch, imported from the repository
  module `research_actions` which is not under `src/`) as total
  functions, per the spec's contract that evidence failures degrade to
  shorter or empty results rather than aborting the caller.

  Every invocation of the Content Generator made by repository code is
  recorded in an explicit call log (`List Call`), each entry carrying
  the action kind and the arguments the source passes to the action's
  `run`; the exact prompt string handed to the generator is rebuilt by
  `Call.prompt` from the source's `PROMPT_TEMPLATE`s.

  `Variant.main` embeds `main.py`, `Variant.streamlit` embeds
  `streamlit_debate.py`; the two files differ only in the SpeakAloud
  instruction wording and in the presence of the Advisor stage.
-/
import Mathlib

set_option maxRecDepth 8000

namespace Debate

/-- Which of the two source files a definition follows where they differ. -/
inductive Variant where
  | main
  | streamlit
deriving DecidableEq, Repr

/-- Tag identifying which action produced a message (`cause_by`).
The seed message carries the framework default `UserRequirement`. -/
inductive ActionTag where
  | userRequirement
  | speakAloud
deriving DecidableEq, Repr

/-- `metagpt.schema.Message` restricted to the fields the repository reads:
`content`, `role`, `sent_from`, `send_to` (a set of names) and `cause_by`. -/
structure Message where
  content : String
  role : String
  sent_from : String
  send_to : Finset String
  cause_by : ActionTag
deriving DecidableEq

/-- The `Debator` role's state: its class fields plus the framework
memory (`self.rc.memory`), an ordered list of messages. -/
structure Debator where
  name : String := ""
  profile : String := ""
  opponent_name1 : String := ""
  opponent_name2 : String := ""
  research_info : String := ""
  research_count : Nat := 0
  max_research : Nat := 1
  memory : List Message := []
deriving DecidableEq

/-- Modelled from the spec: the Evidence Provider's three sub-actions
(`CollectLinks`, `WebBrowseAndSummarize`, `ConductResearch`) live in the
repository module `research_actions`, which is not under `src/`.  Per
spec section 6 their failures "degrade to a shorter or empty report
rather than aborting the caller", so they are embedded as total
functions; a failed or empty retrieval is the empty result. -/
structure Evidence where
  collect : String → List (String × List String)
  browse : List String → String → List String
  conduct : String → String → String

/-- Error raised by a failing Content Generator call. -/
abbrev GErr := String

/-- The external Content Generator (`self._aask`): prompt to text, may fail. -/
abbrev Gen := String → Except GErr String

/-- One recorded invocation of the Content Generator by repository code,
carrying the arguments passed to the owning action's `run`. -/
inductive Call where
  | requestResearch (name profile topic : String)
  | speakAloud (context name opponent_name1 opponent_name2 idea profile : String)
      (round_num : Nat) (research_info : String)
  | evaluate (topic debate_content : String)
  | advise (topic evaluation : String)
deriving DecidableEq

def Call.isSpeak : Call → Bool
  | .speakAloud .. => true
  | _ => false

def Call.isResearchReq : Call → Bool
  | .requestResearch .. => true
  | _ => false

def Call.isEval : Call → Bool
  | .evaluate .. => true
  | _ => false

def Call.isAdvise : Call → Bool
  | .advise .. => true
  | _ => false

/-- Aggregator calls are the Evaluator's and the Advisor's. -/
def Call.isAggregator : Call → Bool
  | .evaluate .. => true
  | .advise .. => true
  | _ => false

/-- The `idea` argument of a SpeakAloud call, if any. -/
def Call.ideaArg : Call → Option String
  | .speakAloud _ _ _ _ idea _ _ _ => some idea
  | _ => none

/-- `RequestResearch.PROMPT_TEMPLATE` after `.format` (identical in both files). -/
def requestResearchPrompt (name profile topic : String) : String :=
  "\n    ## BACKGROUND\n    You are " ++ name ++ ", a " ++ profile ++
  " preparing for a debate on: " ++ topic ++
  "\n    \n    ## TASK\n    What specific aspect of this topic would you like to research to strengthen your position?\n    Provide ONE specific research query (1-2 sentences) that would help you in this debate.\n    Focus on facts, statistics, examples, or evidence that would support your " ++
  profile ++ " perspective.\n    "

/-- `main.py` SpeakAloud opening instruction (`round_num <= 3`). -/
def mainOpeningInstruction (round_num : Nat) (profile : String) : String :=
  "This is round " ++ toString round_num ++
  " of 3 opening rounds. You should ONLY state your view on the topic, give your arguments and how you logically and rigorously arrived at your views. Do NOT rebut or respond to any of your opponents\x27 arguments yet. Your viewpoint should be clear, concise, and extremely stereotypical of a " ++
  profile ++
  ". MANDATORY: Use specific facts, statistics, and evidence from your research information to support your arguments. Include proper citations in your response using [Source: URL or description] format."

/-- `main.py` SpeakAloud rebuttal instruction (`round_num > 3`). -/
def mainRebuttalInstruction (round_num : Nat) (name : String) : String :=
  "This is round " ++ toString round_num ++
  ". You should defend your arguments, and attack and directly rebut your opponents\x27 arguments if they differ from yours. Craft a strong, logically rigorous response in " ++
  name ++
  "\x27s rhetoric and viewpoints. MANDATORY: Support your arguments with specific evidence from your research and include citations using [Source: URL or description] format."

/-- `streamlit_debate.py` SpeakAloud opening instruction (`round_num <= 3`). -/
def stOpeningInstruction (round_num : Nat) (profile : String) : String :=
  "This is round " ++ toString round_num ++
  " of 3 opening rounds. You should ONLY state your view on the topic, give your arguments and how you logically and rigorously arrived at your views. Do NOT rebut or respond to any of your opponents\x27 arguments. Your viewpoint should be clear, concise, and stereotypical of a " ++
  profile ++
  ". MANDATORY: Use specific facts, statistics, and evidence from your research information to support your arguments. Include proper citations in your response using [Source: URL or description] format."

/-- `streamlit_debate.py` SpeakAloud rebuttal instruction (`round_num > 3`). -/
def stRebuttalInstruction (round_num : Nat) (name : String) : String :=
  "This is round " ++ toString round_num ++
  ". You should first restate your view, then closely respond to your opponents\x27 latest arguments, defend your arguments, and attack your opponents\x27 arguments if they differ from yours. Craft a strong, logically rigorous response in " ++
  name ++
  "\x27s rhetoric and viewpoints. MANDATORY: Support your arguments with specific evidence from your research and include citations using [Source: URL or description] format."

/-- The instruction computed in `SpeakAloud.run`: selected by `round_num`
with the fixed threshold 3 (opening) / 4 (rebuttal). -/
def speakAloudInstruction (v : Variant) (round_num : Nat) (name profile : String) : String :=
  match v with
  | Variant.main =>
      if round_num ≤ 3 then mainOpeningInstruction round_num profile
      else mainRebuttalInstruction round_num name
  | Variant.streamlit =>
      if round_num ≤ 3 then stOpeningInstruction round_num profile
      else stRebuttalInstruction round_num name

/-- `SpeakAloud.PROMPT_TEMPLATE` after `.format` (identical in both files;
`profile` only feeds the instruction text). -/
def speakAloudPrompt (context name opponent_name1 opponent_name2 idea instruction research_info : String) : String :=
  "\n    ## BACKGROUND\n    Suppose you are " ++ name ++ ", you are in a debate with " ++
  opponent_name1 ++ " and " ++ opponent_name2 ++ ". You are debating the topic:\n    " ++
  idea ++ "\n    ## DEBATE HISTORY\n    Previous rounds:\n    " ++ context ++
  "\n    ## RESEARCH INFORMATION\n    " ++ research_info ++ "\n    ## YOUR TURN\n    " ++
  instruction ++ "\n    "

/-- `EvaluateDebate.PROMPT_TEMPLATE` after `.format` (identical in both files). -/
def evaluatePrompt (topic debate_content : String) : String :=
  "\n    ## ROLE\n    You are a neutral evaluator analyzing a debate to provide clear, actionable recommendations.\n\n    ## DEBATE TOPIC\n    " ++
  topic ++ "\n\n    ## DEBATE CONTENT\n    " ++ debate_content ++
  "\n\n    ## TASK\n    Write a concise evaluation (200-300 words) that:\n    1. Summarizes key arguments from all participants\n    2. Identifies core trade-offs and considerations\n    3. Provides balanced, practical recommendations for decision-makers\n    4. Focuses on actionable solutions\n\n    Your response should be structured and help stakeholders make informed decisions.\n    "

/-- `ProvideAdvice.PROMPT_TEMPLATE` after `.format` (`streamlit_debate.py` only). -/
def advisePrompt (topic evaluation : String) : String :=
  "\n    ## ROLE\n    You are a neutral advisor analyzing a debate to provide compromise solutions.\n\n    ## DEBATE TOPIC\n    " ++
  topic ++ "\n\n    ## EVALUATION\n    " ++ evaluation ++
  "\n\n    ## TASK\n    Based on the evaluation, provide 3 compromise solutions that balance all perspectives.\n    For each solution:\n    1. **Solution**: Brief description\n    2. **Benefits**: How it addresses each party\x27s concerns\n    3. **Consequences**: Potential negative outcomes for each party\n    4. **Implementation**: Practical steps\n\n    Focus on realistic compromises that all parties could accept.\n    "

/-- The exact prompt string handed to the Content Generator for a call. -/
def Call.prompt (v : Variant) : Call → String
  | .requestResearch name profile topic => requestResearchPrompt name profile topic
  | .speakAloud context name o1 o2 idea profile round_num research_info =>
      speakAloudPrompt context name o1 o2 idea
        (speakAloudInstruction v round_num name profile) research_info
  | .evaluate topic debate_content => evaluatePrompt topic debate_content
  | .advise topic evaluation => advisePrompt topic evaluation

/-- `leadsWith n h` holds when `n` is an initial segment of `h`. -/
def leadsWith : List Char → List Char → Bool
  | [], _ => true
  | _ :: _, [] => false
  | a :: as, b :: bs => a == b && leadsWith as bs

/-- `containsSub n h` holds when `n` occurs contiguously inside `h`. -/
def containsSub (needle : List Char) : List Char → Bool
  | [] => leadsWith needle []
  | c :: rest => leadsWith needle (c :: rest) || containsSub needle rest

/-- Substring occurrence on strings. -/
def strContains (hay needle : String) : Bool :=
  containsSub needle.data hay.data

/-- The `Debator` watches `UserRequirement` and `SpeakAloud`
(`self._watch([UserRequirement, SpeakAloud])`). -/
def watchedTags : List ActionTag := [ActionTag.userRequirement, ActionTag.speakAloud]

/-- The predicate of `Debator._observe`'s news filter, exactly as written:
`self.name in msg.send_to or msg.send_to == {self.name}`. -/
def observeKeep (name : String) (m : Message) : Prop :=
  name ∈ m.send_to ∨ m.send_to = {name}

instance (name : String) (m : Message) : Decidable (observeKeep name m) := by
  unfold observeKeep; infer_instance

/-- The news an incoming message yields in `Debator._observe`: the
framework (`super()._observe()`) keeps buffered messages caused by a
watched action or addressed to the role, then the override applies the
`observeKeep` filter. -/
def newsOf (d : Debator) (m : Message) : List Message :=
  (([m].filter fun n => decide (n.cause_by ∈ watchedTags) || decide (d.name ∈ n.send_to)).filter
    fun n => decide (observeKeep d.name n))

/-- The membership-only filter the spec says is the sole intended rule
("a message is observable by an agent iff that agent's identifier
appears in `recipients`"); stated from the spec's words, to be compared
with `newsOf`. -/
def specNewsOf (d : Debator) (m : Message) : List Message :=
  (([m].filter fun n => decide (n.cause_by ∈ watchedTags) || decide (d.name ∈ n.send_to)).filter
    fun n => decide (d.name ∈ n.send_to))

/-- The framework's `_observe` also commits the delivered message to the
role's memory (`self.rc.memory.add_batch(news)`); in this repository
every message has a fresh id, so no deduplication ever fires. -/
def observeD (d : Debator) (m : Message) : Debator :=
  { d with memory := d.memory ++ [m] }

/-- `researcher.research_topic`: bounded link collection (at most 4 urls
across queries), summarization, then report synthesis. -/
def research_topic (ev : Evidence) (topic : String) : String :=
  let links := ev.collect topic
  let step := fun (acc : List String × Nat) (qu : String × List String) =>
    if qu.2 ≠ [] ∧ acc.2 < 4 then
      let limited := qu.2.take (4 - acc.2)
      (acc.1 ++ ev.browse limited qu.1, acc.2 + limited.length)
    else acc
  let res := links.foldl step ([], 0)
  ev.conduct topic (String.intercalate "\n---\n" res.1)

/-- `Debator.request_research`: refuse once the cap is reached, otherwise
generate a query, obtain a report, extend the ledger and count. -/
def request_research (v : Variant) (gen : Gen) (ev : Evidence) (d : Debator)
    (topic : String) (log : List Call) : List Call × Except GErr (Debator × String) :=
  if d.max_research ≤ d.research_count then
    (log, Except.ok (d, "Research limit reached"))
  else
    let c := Call.requestResearch d.name d.profile topic
    match gen (c.prompt v) with
    | Except.error e => (log ++ [c], Except.error e)
    | Except.ok query =>
        let research_result := research_topic ev query
        (log ++ [c],
          Except.ok
            ({ d with
                research_info := d.research_info ++ "\n\nResearch Query: " ++ query ++
                  "\nResearch Result: " ++ research_result,
                research_count := d.research_count + 1 },
              research_result))

/-- Any sequence of `request_research` calls against one agent,
stopping at the first generator failure. -/
def requestResearchSeq (calls : List (Gen × Evidence × String)) (d : Debator)
    (log : List Call) : List Call × Except GErr Debator :=
  match calls with
  | [] => (log, Except.ok d)
  | (g, ev, t) :: rest =>
      match request_research Variant.main g ev d t log with
      | (log1, Except.error e) => (log1, Except.error e)
      | (log1, Except.ok (d1, _)) => requestResearchSeq rest d1 log1

/-- The debate-history string built in `Debator._act` from the agent's
memory. -/
def contextOf (d : Debator) : String :=
  String.intercalate "\n" (d.memory.map fun m => m.sent_from ++ ": " ++ m.content)

/-- The `idea` argument of `Debator._act`:
`self.get_memories()[0].content if self.get_memories() else "debate topic"`. -/
def ideaOf (d : Debator) : String :=
  match d.memory with
  | [] => "debate topic"
  | m :: _ => m.content

/-- `speaker_turns` in `Debator._act`: how many memory entries this agent
authored. -/
def turnsOf (d : Debator) : Nat :=
  (d.memory.filter fun m => m.sent_from == d.name).length

/-- The SpeakAloud invocation `Debator._act` issues. -/
def actCall (d : Debator) : Call :=
  Call.speakAloud (contextOf d) d.name d.opponent_name1 d.opponent_name2
    (ideaOf d) d.profile (turnsOf d + 1) d.research_info

/-- `Debator._act`: invoke SpeakAloud, wrap the reply in a message
addressed to the two opponents, and append it to the agent's memory. -/
def act (v : Variant) (gen : Gen) (d : Debator) (log : List Call) :
    List Call × Except GErr (Debator × Message) :=
  match gen ((actCall d).prompt v) with
  | Except.error e => (log ++ [actCall d], Except.error e)
  | Except.ok rsp =>
      let msg : Message :=
        { content := rsp, role := d.profile, sent_from := d.name,
          send_to := {d.opponent_name1, d.opponent_name2},
          cause_by := ActionTag.speakAloud }
      (log ++ [actCall d], Except.ok ({ d with memory := d.memory ++ [msg] }, msg))

/-- `Role.run(msg)` for a `Debator`: deliver the message (observe) and
act.  The framework acts only when the news filter admits a message;
theorem `C10` below shows the filter admits the incoming message in
every round of this session, so the total model coincides on all
reachable states. -/
def Debator.runMsg (v : Variant) (gen : Gen) (d : Debator) (m : Message)
    (log : List Call) : List Call × Except GErr (Debator × Message) :=
  act v gen (observeD d m) log

/-- The scheduler's speaker triple `(current, second, third)`. -/
abbrev Triple := Debator × Debator × Debator

/-- One iteration of the debate loop: the current speaker responds, then
`current, second, third = third, current, second`. -/
def debateStep (v : Variant) (gen : Gen) (t : Triple) (m : Message)
    (log : List Call) : List Call × Except GErr (Triple × Message) :=
  match Debator.runMsg v gen t.1 m log with
  | (log1, Except.error e) => (log1, Except.error e)
  | (log1, Except.ok (c1, response)) => (log1, Except.ok ((t.2.2, c1, t.2.1), response))

/-- One entry of the streamlit `debate_log`. -/
structure LogEntry where
  round : Nat
  speaker : String
  content : String
deriving DecidableEq

/-- The `for round_num in range(n_round)` loop shared by `debate` and
`run_debate`, accumulating `all_messages` and the `debate_log` (the
latter is built only by streamlit but records exactly this data);
a generator failure aborts the loop and propagates. -/
def debateRounds (v : Variant) (gen : Gen) :
    Nat → Triple → Message → Nat → List Message → List LogEntry → List Call →
    List Call × List Message × List LogEntry × Except GErr (Triple × Message)
  | 0, t, m, _, msgs, dlog, log => (log, msgs, dlog, Except.ok (t, m))
  | n + 1, t, m, ridx, msgs, dlog, log =>
      match debateStep v gen t m log with
      | (log1, Except.error e) => (log1, msgs, dlog, Except.error e)
      | (log1, Except.ok (t1, response)) =>
          debateRounds v gen n t1 response (ridx + 1) (msgs ++ [response])
            (dlog ++ [{ round := ridx, speaker := t.1.name, content := response.content }]) log1

/-- The research phase: each debater, in creation order, gets one
`request_research`; streamlit also records a research log. -/
def researchPhase (v : Variant) (gen : Gen) (ev : Evidence) (idea : String)
    (d1 d2 d3 : Debator) (log : List Call) :
    List Call × Except GErr (Triple × List (String × String)) :=
  match request_research v gen ev d1 idea log with
  | (l1, Except.error e) => (l1, Except.error e)
  | (l1, Except.ok (e1, r1)) =>
      match request_research v gen ev d2 idea l1 with
      | (l2, Except.error e) => (l2, Except.error e)
      | (l2, Except.ok (e2, r2)) =>
          match request_research v gen ev d3 idea l2 with
          | (l3, Except.error e) => (l3, Except.error e)
          | (l3, Except.ok (e3, r3)) =>
              (l3, Except.ok ((e1, e2, e3),
                [(e1.name, r1), (e2.name, r2), (e3.name, r3)]))

/-- `School = Debator(name="Principal", profile="School", ...)`. -/
def School : Debator :=
  { name := "Principal", profile := "School",
    opponent_name1 := "John", opponent_name2 := "Mom" }

/-- `Student = Debator(name="John", profile="Student", ...)`. -/
def Student : Debator :=
  { name := "John", profile := "Student",
    opponent_name1 := "Mom", opponent_name2 := "Principal" }

/-- `Parent = Debator(name="Mom", profile="Parent", ...)`. -/
def Parent : Debator :=
  { name := "Mom", profile := "Parent",
    opponent_name1 := "Principal", opponent_name2 := "John" }

/-- The seed message:
`Message(content=idea, role="user", send_to={"Principal"}, sent_from="User")`;
its `cause_by` is the framework default `UserRequirement`. -/
def seedMsg (idea : String) : Message :=
  { content := idea, role := "user", sent_from := "User",
    send_to := {"Principal"}, cause_by := ActionTag.userRequirement }

/-- Everything `debate` / `run_debate` do before the Aggregator: the
research phase, then `n_round` scheduled turns starting from the seed
message addressed to Principal.  Returns the call log, the collected
`all_messages`, the per-round `debate_log`, the `research_log`, and the
loop outcome. -/
def sessionCore (v : Variant) (gen : Gen) (ev : Evidence) (idea : String)
    (n_round : Nat) :
    List Call × List Message × List LogEntry × List (String × String) ×
      Except GErr (Triple × Message) :=
  match researchPhase v gen ev idea School Student Parent [] with
  | (log, Except.error e) => (log, [], [], [], Except.error e)
  | (log, Except.ok (t, rlog)) =>
      match debateRounds v gen n_round t (seedMsg idea) 1 [] [] log with
      | (log1, msgs, dlog, res) => (log1, msgs, dlog, rlog, res)

/-- `DebateEvaluator.evaluate`'s `debate_content`:
`"\n\n".join(f"{msg.sent_from}: {msg.content}" for msg in debate_messages)`. -/
def evaluateContent (msgs : List Message) : String :=
  String.intercalate "\n\n" (msgs.map fun m => m.sent_from ++ ": " ++ m.content)

/-- `main.py`'s `debate(idea, investment, n_round)`: research phase,
`n_round` turns, then one Evaluator call; returns the evaluation.  The
`investment` parameter is accepted and never used. -/
def debate (gen : Gen) (ev : Evidence) (idea : String) (investment : Float)
    (n_round : Nat) : List Call × Except GErr String :=
  match sessionCore Variant.main gen ev idea n_round with
  | (log, msgs, _dlog, _rlog, Except.ok _) =>
      match gen ((Call.evaluate idea (evaluateContent msgs)).prompt Variant.main) with
      | Except.error e => (log ++ [Call.evaluate idea (evaluateContent msgs)], Except.error e)
      | Except.ok evaluation =>
          (log ++ [Call.evaluate idea (evaluateContent msgs)], Except.ok evaluation)
  | (log, _, _, _, Except.error e) => (log, Except.error e)

/-- `streamlit_debate.py`'s `run_debate(idea, n_round)`: research phase,
`n_round` turns, one Evaluator call, one Advisor call; returns
`(debate_log, evaluation, research_log, advice)`. -/
def run_debate (gen : Gen) (ev : Evidence) (idea : String) (n_round : Nat) :
    List Call × Except GErr (List LogEntry × String × List (String × String) × String) :=
  match sessionCore Variant.streamlit gen ev idea n_round with
  | (log, msgs, dlog, rlog, Except.ok _) =>
      match gen ((Call.evaluate idea (evaluateContent msgs)).prompt Variant.streamlit) with
      | Except.error e => (log ++ [Call.evaluate idea (evaluateContent msgs)], Except.error e)
      | Except.ok evaluation =>
          match gen ((Call.advise idea evaluation).prompt Variant.streamlit) with
          | Except.error e =>
              (log ++ [Call.evaluate idea (evaluateContent msgs)] ++ [Call.advise idea evaluation],
                Except.error e)
          | Except.ok advice =>
              (log ++ [Call.evaluate idea (evaluateContent msgs)] ++ [Call.advise idea evaluation],
                Except.ok (dlog, evaluation, rlog, advice))
  | (log, _, _, _, Except.error e) => (log, Except.error e)

/-- The cyclic speaker order the scheduler's swap establishes at session
start: `cyc t k` is the name of the speaker `k` rounds after triple `t`. -/
def cyc (t : Triple) (k : Nat) : String :=
  if k % 3 = 0 then t.1.name
  else if k % 3 = 1 then t.2.2.name
  else t.2.1.name

/-- The fixed cyclic order of the session, starting from Principal. -/
def rotationOrder : List String := ["Principal", "Mom", "John"]

/-- Same identity and wiring (the fields `_act` never changes). -/
def sameStatics (a b : Debator) : Prop :=
  a.name = b.name ∧ a.profile = b.profile ∧
  a.opponent_name1 = b.opponent_name1 ∧ a.opponent_name2 = b.opponent_name2

/-- The triple is one of the three in-session rotations of the fixed
Principal/John/Mom wiring. -/
def goodTriple (t : Triple) : Prop :=
  (t.1.name = "Principal" ∧ t.1.opponent_name1 = "John" ∧ t.1.opponent_name2 = "Mom" ∧
   t.2.1.name = "John" ∧ t.2.1.opponent_name1 = "Mom" ∧ t.2.1.opponent_name2 = "Principal" ∧
   t.2.2.name = "Mom" ∧ t.2.2.opponent_name1 = "Principal" ∧ t.2.2.opponent_name2 = "John") ∨
  (t.1.name = "Mom" ∧ t.1.opponent_name1 = "Principal" ∧ t.1.opponent_name2 = "John" ∧
   t.2.1.name = "Principal" ∧ t.2.1.opponent_name1 = "John" ∧ t.2.1.opponent_name2 = "Mom" ∧
   t.2.2.name = "John" ∧ t.2.2.opponent_name1 = "Mom" ∧ t.2.2.opponent_name2 = "Principal") ∨
  (t.1.name = "John" ∧ t.1.opponent_name1 = "Mom" ∧ t.1.opponent_name2 = "Principal" ∧
   t.2.1.name = "Mom" ∧ t.2.1.opponent_name1 = "Principal" ∧ t.2.1.opponent_name2 = "John" ∧
   t.2.2.name = "Principal" ∧ t.2.2.opponent_name1 = "John" ∧ t.2.2.opponent_name2 = "Mom")

lemma leadsWith_append {n a : List Char} (b : List Char) (h : leadsWith n a = true) :
    leadsWith n (a ++ b) = true := by
  induction n generalizing a with
  | nil => simp [leadsWith]
  | cons c cs ih =>
    cases a with
    | nil => simp [leadsWith] at h
    | cons x xs =>
      simp only [leadsWith, Bool.and_eq_true] at h
      simp only [List.cons_append, leadsWith, Bool.and_eq_true]
      exact ⟨h.1, ih h.2⟩

lemma containsSub_append_right {n a : List Char} (b : List Char)
    (h : containsSub n a = true) : containsSub n (a ++ b) = true := by
  induction a with
  | nil =>
    simp only [containsSub] at h
    cases n with
    | nil =>
      cases b with
      | nil => simp [containsSub, leadsWith]
      | cons y ys => simp [containsSub, leadsWith]
    | cons c cs => simp [leadsWith] at h
  | cons x xs ih =>
    simp only [containsSub, Bool.or_eq_true] at h
    simp only [List.cons_append, containsSub, Bool.or_eq_true]
    rcases h with h | h
    · exact Or.inl (leadsWith_append b h)
    · exact Or.inr (ih h)

lemma containsSub_append_left {n b : List Char} (a : List Char)
    (h : containsSub n b = true) : containsSub n (a ++ b) = true := by
  induction a with
  | nil => simpa using h
  | cons x xs ih =>
    simp only [List.cons_append, containsSub, Bool.or_eq_true]
    exact Or.inr ih

lemma string_data_append (s t : String) : (s ++ t).data = s.data ++ t.data := by
  cases s; cases t; rfl

lemma strContains_append_left {b nd : String} (a : String)
    (h : strContains b nd = true) : strContains (a ++ b) nd = true := by
  unfold strContains at *
  rw [string_data_append]
  exact containsSub_append_left a.data h

lemma strContains_append_right {a nd : String} (b : String)
    (h : strContains a nd = true) : strContains (a ++ b) nd = true := by
  unfold strContains at *
  rw [string_data_append]
  exact containsSub_append_right b.data h

lemma act_error {v : Variant} {gen : Gen} {d : Debator} {log log1 : List Call}
    {e : GErr} (h : act v gen d log = (log1, Except.error e)) :
    log1 = log ++ [actCall d] ∧ gen ((actCall d).prompt v) = Except.error e := by
  unfold act at h
  cases hg : gen ((actCall d).prompt v) with
  | error e1 =>
    rw [hg] at h
    simp only [Prod.mk.injEq, Except.error.injEq] at h
    exact ⟨h.1.symm, by rw [h.2]⟩
  | ok rsp =>
    rw [hg] at h
    simp at h

lemma act_ok {v : Variant} {gen : Gen} {d : Debator} {log log1 : List Call}
    {d1 : Debator} {m : Message} (h : act v gen d log = (log1, Except.ok (d1, m))) :
    log1 = log ++ [actCall d] ∧ sameStatics d1 d ∧
    m.sent_from = d.name ∧ m.send_to = {d.opponent_name1, d.opponent_name2} ∧
    m.cause_by = ActionTag.speakAloud ∧
    gen ((actCall d).prompt v) = Except.ok m.content ∧
    d1.memory = d.memory ++ [m] ∧ d1.research_info = d.research_info := by
  unfold act at h
  cases hg : gen ((actCall d).prompt v) with
  | error e1 => rw [hg] at h; simp at h
  | ok rsp =>
    rw [hg] at h
    simp only [Prod.mk.injEq, Except.ok.injEq] at h
    obtain ⟨hlog, hd, hm⟩ := h
    subst hd
    subst hm
    refine ⟨hlog.symm, ⟨rfl, rfl, rfl, rfl⟩, rfl, rfl, rfl, rfl, rfl, rfl⟩

lemma observeD_statics (d : Debator) (m : Message) : sameStatics (observeD d m) d :=
  ⟨rfl, rfl, rfl, rfl⟩

lemma debateStep_error {v : Variant} {gen : Gen} {t : Triple} {m : Message}
    {log log1 : List Call} {e : GErr}
    (h : debateStep v gen t m log = (log1, Except.error e)) :
    log1 = log ++ [actCall (observeD t.1 m)] := by
  unfold debateStep Debator.runMsg at h
  cases ha : act v gen (observeD t.1 m) log with
  | mk la ra =>
    cases ra with
    | error e1 =>
      rw [ha] at h
      simp only [Prod.mk.injEq, Except.error.injEq] at h
      rcases h with ⟨h1, _⟩
      subst h1
      exact (act_error ha).1
    | ok p =>
      rw [ha] at h
      simp at h

lemma debateStep_ok {v : Variant} {gen : Gen} {t t1 : Triple} {m m1 : Message}
    {log log1 : List Call}
    (h : debateStep v gen t m log = (log1, Except.ok (t1, m1))) :
    log1 = log ++ [actCall (observeD t.1 m)] ∧
    t1.1 = t.2.2 ∧ t1.2.2 = t.2.1 ∧ sameStatics t1.2.1 t.1 ∧
    m1.sent_from = t.1.name ∧
    m1.send_to = {t.1.opponent_name1, t.1.opponent_name2} := by
  unfold debateStep Debator.runMsg at h
  cases ha : act v gen (observeD t.1 m) log with
  | mk la ra =>
    cases ra with
    | error e1 => rw [ha] at h; simp at h
    | ok p =>
      rw [ha] at h
      obtain ⟨c1, resp⟩ := p
      simp only [Prod.mk.injEq, Except.ok.injEq] at h
      obtain ⟨hlog, ht, hm⟩ := h
      obtain ⟨h1, hs, h3, h4, h5, h6, _, _⟩ := act_ok ha
      subst hlog
      subst ht
      subst hm
      obtain ⟨hn, hp, ho1, ho2⟩ := hs
      refine ⟨h1, rfl, rfl, ?_, ?_, ?_⟩
      · exact ⟨hn, hp, ho1, ho2⟩
      · simpa using h3
      · simpa using h4

lemma debateRounds_succ_error {v : Variant} {gen : Gen} {n : Nat} {t : Triple}
    {m : Message} {ridx : Nat} {msgs : List Message} {dlog : List LogEntry}
    {log log1 : List Call} {e : GErr}
    (h : debateStep v gen t m log = (log1, Except.error e)) :
    debateRounds v gen (n + 1) t m ridx msgs dlog log = (log1, msgs, dlog, Except.error e) := by
  simp only [debateRounds]
  rw [h]

lemma debateRounds_succ_ok {v : Variant} {gen : Gen} {n : Nat} {t t1 : Triple}
    {m resp : Message} {ridx : Nat} {msgs : List Message} {dlog : List LogEntry}
    {log log1 : List Call}
    (h : debateStep v gen t m log = (log1, Except.ok (t1, resp))) :
    debateRounds v gen (n + 1) t m ridx msgs dlog log =
      debateRounds v gen n t1 resp (ridx + 1) (msgs ++ [resp])
        (dlog ++ [{ round := ridx, speaker := t.1.name, content := resp.content }]) log1 := by
  simp only [debateRounds]
  rw [h]

lemma cyc_rotate {t t1 : Triple} (h1 : t1.1 = t.2.2) (h2 : t1.2.2 = t.2.1)
    (hn : t1.2.1.name = t.1.name) (k : Nat) : cyc t1 k = cyc t (k + 1) := by
  unfold cyc
  have h3 : k % 3 = 0 ∨ k % 3 = 1 ∨ k % 3 = 2 := by omega
  rcases h3 with h | h | h
  · have h4 : (k + 1) % 3 = 1 := by omega
    simp [h, h4, h1]
  · have h4 : (k + 1) % 3 = 2 := by omega
    simp [h, h4, h2]
  · have h4 : (k + 1) % 3 = 0 := by omega
    simp [h, h4, hn]

lemma goodTriple_rotate {t t1 : Triple} (hg : goodTriple t) (h1 : t1.1 = t.2.2)
    (h2 : t1.2.2 = t.2.1) (hs : sameStatics t1.2.1 t.1) : goodTriple t1 := by
  obtain ⟨hn, _, ho1, ho2⟩ := hs
  rcases hg with ⟨a1, a2, a3, a4, a5, a6, a7, a8, a9⟩ |
    ⟨a1, a2, a3, a4, a5, a6, a7, a8, a9⟩ | ⟨a1, a2, a3, a4, a5, a6, a7, a8, a9⟩
  · exact Or.inr (Or.inl ⟨h1 ▸ a7, h1 ▸ a8, h1 ▸ a9, hn.trans a1, ho1.trans a2,
      ho2.trans a3, h2 ▸ a4, h2 ▸ a5, h2 ▸ a6⟩)
  · exact Or.inr (Or.inr ⟨h1 ▸ a7, h1 ▸ a8, h1 ▸ a9, hn.trans a1, ho1.trans a2,
      ho2.trans a3, h2 ▸ a4, h2 ▸ a5, h2 ▸ a6⟩)
  · exact Or.inl ⟨h1 ▸ a7, h1 ▸ a8, h1 ▸ a9, hn.trans a1, ho1.trans a2,
      ho2.trans a3, h2 ▸ a4, h2 ▸ a5, h2 ▸ a6⟩

lemma goodTriple_next_mem {t : Triple} (hg : goodTriple t) :
    cyc t 1 ∈ ({t.1.opponent_name1, t.1.opponent_name2} : Finset String) := by
  have h1 : cyc t 1 = t.2.2.name := by simp [cyc]
  rw [h1]
  rcases hg with ⟨a1, a2, a3, a4, a5, a6, a7, a8, a9⟩ |
    ⟨a1, a2, a3, a4, a5, a6, a7, a8, a9⟩ | ⟨a1, a2, a3, a4, a5, a6, a7, a8, a9⟩ <;>
    rw [a2, a3, a7] <;> decide

lemma debateRounds_spec (v : Variant) (gen : Gen) :
    ∀ (n : Nat) (t : Triple) (m : Message) (ridx : Nat) (msgs : List Message)
      (dlog : List LogEntry) (log : List Call), goodTriple t →
    ∃ lnew mnew dnew res,
      debateRounds v gen n t m ridx msgs dlog log =
        (log ++ lnew, msgs ++ mnew, dlog ++ dnew, res) ∧
      (∀ c ∈ lnew, c.isSpeak = true) ∧
      dnew.length = mnew.length ∧
      (∀ tr mr, res = Except.ok (tr, mr) → mnew.length = n ∧ lnew.length = n) ∧
      (∀ j (hj : j < mnew.length),
        (mnew.get ⟨j, hj⟩).sent_from = cyc t j ∧
        cyc t (j + 1) ∈ (mnew.get ⟨j, hj⟩).send_to) ∧
      (∀ j (hj : j < dnew.length) (hj2 : j < mnew.length),
        (dnew.get ⟨j, hj⟩).round = ridx + j ∧
        (dnew.get ⟨j, hj⟩).speaker = cyc t j ∧
        (dnew.get ⟨j, hj⟩).content = (mnew.get ⟨j, hj2⟩).content) := by
  intro n
  induction n with
  | zero =>
    intro t m ridx msgs dlog log _
    refine ⟨[], [], [], Except.ok (t, m), by simp [debateRounds], ?_, rfl, ?_, ?_, ?_⟩
    · intro c hc; simp at hc
    · intro tr mr _; exact ⟨rfl, rfl⟩
    · intro j hj; simp at hj
    · intro j hj; simp at hj
  | succ n ih =>
    intro t m ridx msgs dlog log hg
    cases hstep : debateStep v gen t m log with
    | mk log1 res1 =>
      cases res1 with
      | error e =>
        have hlog1 := debateStep_error hstep
        refine ⟨[actCall (observeD t.1 m)], [], [], Except.error e, ?_, ?_, rfl, ?_, ?_, ?_⟩
        · rw [debateRounds_succ_error hstep, hlog1]; simp
        · intro c hc
          simp only [List.mem_singleton] at hc
          subst hc
          rfl
        · intro tr mr h; simp at h
        · intro j hj; simp at hj
        · intro j hj; simp at hj
      | ok p =>
        obtain ⟨t1, resp⟩ := p
        obtain ⟨hlog1, hc1, hc2, hcs, hfrom, hto⟩ := debateStep_ok hstep
        have hg1 : goodTriple t1 := goodTriple_rotate hg hc1 hc2 hcs
        have hcyc : ∀ k, cyc t1 k = cyc t (k + 1) := cyc_rotate hc1 hc2 hcs.1
        obtain ⟨lnew1, mnew1, dnew1, res1, heq, hsp, hlen, hok, hmp, hdp⟩ :=
          ih t1 resp (ridx + 1) (msgs ++ [resp])
            (dlog ++ [{ round := ridx, speaker := t.1.name, content := resp.content }]) log1 hg1
        refine ⟨actCall (observeD t.1 m) :: lnew1, resp :: mnew1,
          { round := ridx, speaker := t.1.name, content := resp.content } :: dnew1,
          res1, ?_, ?_, ?_, ?_, ?_, ?_⟩
        · rw [debateRounds_succ_ok hstep, heq, hlog1]
          simp
        · intro c hc
          rcases List.mem_cons.mp hc with hc | hc
          · subst hc; rfl
          · exact hsp c hc
        · simpa using hlen
        · intro tr mr h
          obtain ⟨h1, h2⟩ := hok tr mr h
          simp [h1, h2]
        · intro j hj
          cases j with
          | zero =>
            refine ⟨by simpa [cyc] using hfrom, ?_⟩
            show cyc t (0 + 1) ∈ resp.send_to
            rw [hto]
            exact goodTriple_next_mem hg
          | succ j =>
            have hj1 : j < mnew1.length := by simpa using hj
            obtain ⟨hf, hs⟩ := hmp j hj1
            constructor
            · simpa [hcyc j] using hf
            · have := hcyc (j + 1)
              simp only [List.get_cons_succ]
              rw [← this]
              exact hs
        · intro j hj hj2
          cases j with
          | zero =>
            refine ⟨by simp, by simp [cyc], by simp⟩
          | succ j =>
            have hjd : j < dnew1.length := by simpa using hj
            have hjm : j < mnew1.length := by simpa using hj2
            obtain ⟨h1, h2, h3⟩ := hdp j hjd hjm
            refine ⟨?_, ?_, ?_⟩
            · simp only [List.get_cons_succ]
              rw [h1]
              omega
            · simp only [List.get_cons_succ]
              rw [h2, hcyc j]
            · simp only [List.get_cons_succ]
              exact h3

lemma debateRounds_split (v : Variant) (gen : Gen) (a b : Nat) :
    ∀ (t : Triple) (m : Message) (ridx : Nat) (msgs : List Message)
      (dlog : List LogEntry) (log : List Call),
    debateRounds v gen (a + b) t m ridx msgs dlog log =
      (match debateRounds v gen a t m ridx msgs dlog log with
       | (log1, msgs1, dlog1, Except.ok (t1, m1)) =>
           debateRounds v gen b t1 m1 (ridx + a) msgs1 dlog1 log1
       | (log1, msgs1, dlog1, Except.error e) => (log1, msgs1, dlog1, Except.error e)) := by
  induction a with
  | zero =>
    intro t m ridx msgs dlog log
    simp [debateRounds]
  | succ a ih =>
    intro t m ridx msgs dlog log
    have hadd : a + 1 + b = (a + b) + 1 := by omega
    rw [hadd]
    cases hstep : debateStep v gen t m log with
    | mk log1 res1 =>
      cases res1 with
      | error e =>
        rw [debateRounds_succ_error hstep, debateRounds_succ_error hstep]
      | ok p =>
        obtain ⟨t1, m1⟩ := p
        rw [debateRounds_succ_ok hstep, ih, debateRounds_succ_ok hstep]
        have hr : ridx + 1 + a = ridx + (a + 1) := by omega
        rw [hr]

lemma request_research_capped {v : Variant} {gen : Gen} {ev : Evidence}
    {d : Debator} {topic : String} {log : List Call}
    (h : d.max_research ≤ d.research_count) :
    request_research v gen ev d topic log = (log, Except.ok (d, "Research limit reached")) := by
  unfold request_research
  rw [if_pos h]

lemma request_research_ok {v : Variant} {gen : Gen} {ev : Evidence}
    {d d1 : Debator} {topic r : String} {log log1 : List Call}
    (h : request_research v gen ev d topic log = (log1, Except.ok (d1, r))) :
    sameStatics d1 d ∧ d1.memory = d.memory ∧ d1.max_research = d.max_research ∧
    (d1.research_count = d.research_count ∨
      (d.research_count < d.max_research ∧ d1.research_count = d.research_count + 1)) ∧
    ∃ lnew, log1 = log ++ lnew ∧ ∀ c ∈ lnew, c.isResearchReq = true := by
  unfold request_research at h
  by_cases hc : d.max_research ≤ d.research_count
  · rw [if_pos hc] at h
    simp only [Prod.mk.injEq, Except.ok.injEq] at h
    obtain ⟨h1, h2, _⟩ := h
    subst h1
    subst h2
    exact ⟨⟨rfl, rfl, rfl, rfl⟩, rfl, rfl, Or.inl rfl, [], by simp, by simp⟩
  · rw [if_neg hc] at h
    simp only [] at h
    cases hg : gen ((Call.requestResearch d.name d.profile topic).prompt v) with
    | error e => rw [hg] at h; simp at h
    | ok query =>
      rw [hg] at h
      simp only [Prod.mk.injEq, Except.ok.injEq] at h
      obtain ⟨h1, h2, _⟩ := h
      subst h1
      subst h2
      refine ⟨⟨rfl, rfl, rfl, rfl⟩, rfl, rfl, Or.inr ⟨by omega, rfl⟩,
        [Call.requestResearch d.name d.profile topic], rfl, ?_⟩
      intro c hc1
      simp only [List.mem_singleton] at hc1
      subst hc1
      rfl

lemma requestResearchSeq_count :
    ∀ (calls : List (Gen × Evidence × String)) (d : Debator) (log : List Call),
    d.research_count ≤ d.max_research →
    ∀ d1, (requestResearchSeq calls d log).2 = Except.ok d1 →
    d1.research_count ≤ d1.max_research := by
  intro calls
  induction calls with
  | nil =>
    intro d log hd d1 h
    simp only [requestResearchSeq, Except.ok.injEq] at h
    subst h
    exact hd
  | cons c rest ih =>
    intro d log hd d1 h
    obtain ⟨g, ev, t⟩ := c
    simp only [requestResearchSeq] at h
    cases hr : request_research Variant.main g ev d t log with
    | mk l1 r1 =>
      cases r1 with
      | error e => rw [hr] at h; simp at h
      | ok p =>
        obtain ⟨d2, s⟩ := p
        rw [hr] at h
        obtain ⟨_, _, hmax, hcount, _⟩ := request_research_ok hr
        have hd2 : d2.research_count ≤ d2.max_research := by
          rcases hcount with hc | ⟨hc1, hc2⟩ <;> omega
        exact ih d2 l1 hd2 d1 h

lemma researchPhase_ok {v : Variant} {gen : Gen} {ev : Evidence} {idea : String}
    {log log0 : List Call} {t0 : Triple} {rlog : List (String × String)}
    (h : researchPhase v gen ev idea School Student Parent log = (log0, Except.ok (t0, rlog))) :
    goodTriple t0 ∧
    (∃ lnew, log0 = log ++ lnew ∧ ∀ c ∈ lnew, c.isResearchReq = true) ∧
    t0.1.memory = [] ∧ t0.2.1.memory = [] ∧ t0.2.2.memory = [] ∧
    t0.1.name = "Principal" ∧ t0.2.1.name = "John" ∧ t0.2.2.name = "Mom" := by
  unfold researchPhase at h
  split at h
  · simp at h
  · rename_i l1 e1 s1 h1
    split at h
    · simp at h
    · rename_i l2 e2 s2 h2
      split at h
      · simp at h
      · rename_i l3 e3 s3 h3
        simp only [Prod.mk.injEq, Except.ok.injEq] at h
        obtain ⟨hl, ht, _⟩ := h
        subst hl
        subst ht
        obtain ⟨hs1, hm1, _, _, ln1, hln1, hr1⟩ := request_research_ok h1
        obtain ⟨hs2, hm2, _, _, ln2, hln2, hr2⟩ := request_research_ok h2
        obtain ⟨hs3, hm3, _, _, ln3, hln3, hr3⟩ := request_research_ok h3
        refine ⟨?_, ⟨ln1 ++ ln2 ++ ln3, ?_, ?_⟩, hm1, hm2, hm3, hs1.1, hs2.1, hs3.1⟩
        · exact Or.inl ⟨hs1.1, hs1.2.2.1, hs1.2.2.2, hs2.1, hs2.2.2.1,
            hs2.2.2.2, hs3.1, hs3.2.2.1, hs3.2.2.2⟩
        · rw [hln3, hln2, hln1]; simp
        · intro c hc
          simp only [List.append_assoc, List.mem_append] at hc
          rcases hc with hc | hc | hc
          · exact hr1 c hc
          · exact hr2 c hc
          · exact hr3 c hc

lemma sessionCore_eq_ok {v : Variant} {gen : Gen} {ev : Evidence} {idea : String}
    {n : Nat} {log0 : List Call} {t0 : Triple} {rlog : List (String × String)}
    (hR : researchPhase v gen ev idea School Student Parent [] = (log0, Except.ok (t0, rlog))) :
    sessionCore v gen ev idea n =
      (match debateRounds v gen n t0 (seedMsg idea) 1 [] [] log0 with
       | (log1, msgs, dlog, res) => (log1, msgs, dlog, rlog, res)) := by
  unfold sessionCore
  rw [hR]

lemma cyc_initial {t : Triple} (h1 : t.1.name = "Principal") (h2 : t.2.1.name = "John")
    (h3 : t.2.2.name = "Mom") (k : Nat) : cyc t k = rotationOrder.getD (k % 3) "" := by
  unfold cyc rotationOrder
  have hc : k % 3 = 0 ∨ k % 3 = 1 ∨ k % 3 = 2 := by omega
  rcases hc with h | h | h <;> simp [h, h1, h2, h3]

lemma isResearchReq_not_speak {c : Call} (h : c.isResearchReq = true) : c.isSpeak = false := by
  cases c <;> simp_all [Call.isResearchReq, Call.isSpeak]

lemma isResearchReq_not_agg {c : Call} (h : c.isResearchReq = true) : c.isAggregator = false := by
  cases c <;> simp_all [Call.isResearchReq, Call.isAggregator]

lemma isSpeak_not_agg {c : Call} (h : c.isSpeak = true) : c.isAggregator = false := by
  cases c <;> simp_all [Call.isSpeak, Call.isAggregator]

lemma isResearchReq_not_eval {c : Call} (h : c.isResearchReq = true) : c.isEval = false := by
  cases c <;> simp_all [Call.isResearchReq, Call.isEval]

lemma isSpeak_not_eval {c : Call} (h : c.isSpeak = true) : c.isEval = false := by
  cases c <;> simp_all [Call.isSpeak, Call.isEval]

lemma isResearchReq_not_advise {c : Call} (h : c.isResearchReq = true) : c.isAdvise = false := by
  cases c <;> simp_all [Call.isResearchReq, Call.isAdvise]

lemma isSpeak_not_advise {c : Call} (h : c.isSpeak = true) : c.isAdvise = false := by
  cases c <;> simp_all [Call.isSpeak, Call.isAdvise]

/-- Mock Evidence Provider for concrete witnesses: link collection finds
nothing, report synthesis returns a constant report. -/
def evW : Evidence :=
  { collect := fun _ => [], browse := fun _ _ => [], conduct := fun _ _ => "report" }

/-- Mock Content Generator for concrete witnesses: always succeeds with "ok". -/
def genOkW : Gen := fun _ => Except.ok "ok"

/-- C4: the observation filter of `Debator._observe` admits a message
iff the viewer's name is in its `send_to` set; the extra
singleton-equality disjunct never changes the result, so the two-disjunct
news filter is extensionally equal to the membership-only filter. -/
theorem C4_observe_filter_membership :
    (∀ (name : String) (m : Message), observeKeep name m ↔ name ∈ m.send_to) ∧
    (∀ (d : Debator) (m : Message), newsOf d m = specNewsOf d m) := by
  constructor
  · intro name m
    constructor
    · rintro (h | h)
      · exact h
      · rw [h]
        exact Finset.mem_singleton_self name
    · exact Or.inl
  · intro d m
    unfold newsOf specNewsOf
    congr 1
    funext n
    apply decide_eq_decide.mpr
    constructor
    · rintro (h | h)
      · exact h
      · rw [h]
        exact Finset.mem_singleton_self d.name
    · exact Or.inl

/-- C9: the `investment` parameter of `debate` has no effect: two runs
differing only in `investment` produce identical call logs (hence
identical messages and evaluation) and identical results. -/
theorem C9_investment_unused (gen : Gen) (ev : Evidence) (idea : String)
    (inv1 inv2 : Float) (n_round : Nat) :
    debate gen ev idea inv1 n_round = debate gen ev idea inv2 n_round := rfl

/-- C2 counterexample: in `main.py`, the rebuttal-phase instruction
(turn number 4) does not direct the agent to restate its position — the
string "restate" (or "Restate") does not occur in it — while the
streamlit rebuttal instruction does contain "restate"; so the claim that
every turn number ≥ 4 produces an instruction directing the agent to
restate its position fails on `main.py`. -/
theorem C2_counterexample_no_restate_in_main :
    strContains (speakAloudInstruction Variant.main 4 "Principal" "School") "restate" = false ∧
    strContains (speakAloudInstruction Variant.main 4 "Principal" "School") "Restate" = false ∧
    strContains (speakAloudInstruction Variant.streamlit 4 "Principal" "School") "restate" = true := by
  refine ⟨by decide, by decide, by decide⟩

/-- C2 (amended): the instruction passed to generation is selected
solely by the agent's own turn number — turns 1..3 yield the
opening-phase instruction, which contains the prohibition "Do NOT rebut
or respond to any of your opponents"; turns ≥ 4 yield the
rebuttal-phase instruction, which in `streamlit_debate.py` directs
restate-then-rebut-latest and in `main.py` directs
defend-and-directly-rebut without a restate directive. -/
theorem C2_instruction_by_turn :
    (∀ (rn : Nat) (name profile : String), rn ≤ 3 →
        speakAloudInstruction Variant.main rn name profile = mainOpeningInstruction rn profile ∧
        speakAloudInstruction Variant.streamlit rn name profile = stOpeningInstruction rn profile) ∧
    (∀ (rn : Nat) (name profile : String), 4 ≤ rn →
        speakAloudInstruction Variant.main rn name profile = mainRebuttalInstruction rn name ∧
        speakAloudInstruction Variant.streamlit rn name profile = stRebuttalInstruction rn name) ∧
    (∀ (rn : Nat) (profile : String),
        strContains (mainOpeningInstruction rn profile)
          "Do NOT rebut or respond to any of your opponents" = true ∧
        strContains (stOpeningInstruction rn profile)
          "Do NOT rebut or respond to any of your opponents" = true) ∧
    (∀ (rn : Nat) (name : String),
        strContains (stRebuttalInstruction rn name)
          "first restate your view, then closely respond to your opponents" = true ∧
        strContains (mainRebuttalInstruction rn name) "directly rebut" = true) ∧
    strContains (mainRebuttalInstruction 4 "Principal") "restate" = false := by
  refine ⟨?_, ?_, ?_, ?_, by decide⟩
  · intro rn name profile h
    constructor <;> simp [speakAloudInstruction, if_pos h]
  · intro rn name profile h
    have h3 : ¬ rn ≤ 3 := by omega
    constructor <;> simp [speakAloudInstruction, if_neg h3]
  · intro rn profile
    constructor
    · unfold mainOpeningInstruction
      apply strContains_append_right
      apply strContains_append_right
      apply strContains_append_left
      decide
    · unfold stOpeningInstruction
      apply strContains_append_right
      apply strContains_append_right
      apply strContains_append_left
      decide
  · intro rn name
    constructor
    · unfold stRebuttalInstruction
      apply strContains_append_right
      apply strContains_append_right
      apply strContains_append_left
      decide
    · unfold mainRebuttalInstruction
      apply strContains_append_right
      apply strContains_append_right
      apply strContains_append_left
      decide

/-- Witness for C2 (amended): concrete instantiations of the
turn-number selection. -/
theorem C2_instruction_by_turn_witness :
    speakAloudInstruction Variant.main 2 "Principal" "School" = mainOpeningInstruction 2 "School" ∧
    speakAloudInstruction Variant.streamlit 5 "Mom" "Parent" = stRebuttalInstruction 5 "Mom" :=
  ⟨(C2_instruction_by_turn.1 2 "Principal" "School" (by decide)).1,
   (C2_instruction_by_turn.2.1 5 "Mom" "Parent" (by decide)).2⟩

/-- C3: the evidence gate — a `request_research` call made at or above
the cap returns the sentinel "Research limit reached", logs no generator
or researcher invocation, and leaves the agent (ledger and counter)
unchanged, for every generator and evidence provider; and after any
sequence of `request_research` calls starting at or below the cap,
`research_count` never exceeds `max_research`. -/
theorem C3_research_budget :
    (∀ (v : Variant) (gen : Gen) (ev : Evidence) (d : Debator) (topic : String)
        (log : List Call), d.max_research ≤ d.research_count →
        request_research v gen ev d topic log = (log, Except.ok (d, "Research limit reached"))) ∧
    (∀ (calls : List (Gen × Evidence × String)) (d : Debator) (log : List Call),
        d.research_count ≤ d.max_research →
        ∀ d1, (requestResearchSeq calls d log).2 = Except.ok d1 →
        d1.research_count ≤ d1.max_research) :=
  ⟨fun _ _ _ _ _ _ h => request_research_capped h,
   fun calls d log h d1 h1 => requestResearchSeq_count calls d log h d1 h1⟩

/-- The School agent with its single research budget spent. -/
def schoolCapped : Debator := { School with research_count := 1 }

/-- The School agent after one `request_research` against `genOkW` and `evW`. -/
def schoolResearched : Debator :=
  { School with
      research_info := "\n\nResearch Query: ok\nResearch Result: report",
      research_count := 1 }

/-- Witness for C3: a second request by an agent whose single budget is
spent is refused and changes nothing; a two-call sequence from a fresh
agent ends within budget. -/
theorem C3_research_budget_witness :
    request_research Variant.main genOkW evW schoolCapped "T" [] =
      ([], Except.ok (schoolCapped, "Research limit reached")) ∧
    schoolResearched.research_count ≤ schoolResearched.max_research :=
  ⟨C3_research_budget.1 Variant.main genOkW evW schoolCapped "T" [] (by decide),
   C3_research_budget.2 [(genOkW, evW, "T"), (genOkW, evW, "T")] School [] (by decide)
      schoolResearched rfl⟩

/-- C6: if the Evidence Provider finds nothing (per the spec contract,
its failures degrade to empty results), `research_topic` still returns a
(degraded) report synthesized from empty content, and the requesting
agent's `request_research` returns normally — the agent proceeds into
the debate with its ledger extended by the degraded report, and no
session failure is raised. -/
theorem C6_evidence_failure_nonfatal (v : Variant) (gen : Gen) (ev : Evidence)
    (d : Debator) (topic q : String) (log : List Call)
    (hcap : d.research_count < d.max_research)
    (hq : gen ((Call.requestResearch d.name d.profile topic).prompt v) = Except.ok q)
    (hnothing : ev.collect q = []) :
    research_topic ev q = ev.conduct q "" ∧
    request_research v gen ev d topic log =
      (log ++ [Call.requestResearch d.name d.profile topic],
        Except.ok ({ d with
            research_info := d.research_info ++ "\n\nResearch Query: " ++ q ++
              "\nResearch Result: " ++ research_topic ev q,
            research_count := d.research_count + 1 },
          research_topic ev q)) := by
  have hrt : research_topic ev q = ev.conduct q "" := by
    unfold research_topic
    rw [hnothing]
    rfl
  refine ⟨hrt, ?_⟩
  unfold request_research
  rw [if_neg (by omega)]
  simp only []
  rw [hq]

/-- Witness for C6: with a provider that finds nothing, a fresh agent's
request succeeds and its ledger records the degraded report. -/
theorem C6_evidence_failure_nonfatal_witness :
    request_research Variant.main genOkW evW School "T" [] =
      ([] ++ [Call.requestResearch School.name School.profile "T"],
        Except.ok ({ School with
            research_info := School.research_info ++ "\n\nResearch Query: " ++ "ok" ++
              "\nResearch Result: " ++ research_topic evW "ok",
            research_count := School.research_count + 1 },
          research_topic evW "ok")) :=
  (C6_evidence_failure_nonfatal Variant.main genOkW evW School "T" "ok" []
    (by decide) rfl rfl).2

/-- C1: in every session (both entry points), the speaker of round `i`
(0-based) is the `(i mod 3)`-th agent of the fixed cyclic order
Principal → Mom → John established by the scheduler's swap at session
start; in particular the rotation starts at Principal and after each
speaker the designated next agent of that cyclic order speaks. -/
theorem C1_round_robin (v : Variant) (gen : Gen) (ev : Evidence) (idea : String)
    (n i : Nat) (h : i < (sessionCore v gen ev idea n).2.1.length) :
    ((sessionCore v gen ev idea n).2.1.get ⟨i, h⟩).sent_from =
      rotationOrder.getD (i % 3) "" := by
  cases hres : researchPhase v gen ev idea School Student Parent [] with
  | mk log0 res0 =>
    cases res0 with
    | error e =>
      have hs : sessionCore v gen ev idea n = (log0, [], [], [], Except.error e) := by
        unfold sessionCore
        rw [hres]
      exact absurd h (by rw [hs]; simp)
    | ok p =>
      obtain ⟨t0, rlog⟩ := p
      obtain ⟨hg, _, _, _, _, hn1, hn2, hn3⟩ := researchPhase_ok hres
      obtain ⟨lnew, mnew, dnew, res, heq, _, _, _, hmp, _⟩ :=
        debateRounds_spec v gen n t0 (seedMsg idea) 1 [] [] log0 hg
      have hs : sessionCore v gen ev idea n =
          (log0 ++ lnew, [] ++ mnew, [] ++ dnew, rlog, res) := by
        rw [sessionCore_eq_ok hres, heq]
      revert h
      rw [hs]
      simp only [List.nil_append]
      intro h
      rw [(hmp i h).1]
      exact cyc_initial hn1 hn2 hn3 i

/-- Witness for C1: in a concrete 5-round run, round 3 (0-based) is
spoken by Principal again. -/
theorem C1_round_robin_witness :
    ∃ h : 3 < (sessionCore Variant.main genOkW evW "T" 5).2.1.length,
      ((sessionCore Variant.main genOkW evW "T" 5).2.1.get ⟨3, h⟩).sent_from =
        rotationOrder.getD (3 % 3) "" :=
  ⟨by decide, C1_round_robin Variant.main genOkW evW "T" 5 3 (by decide)⟩

/-- C10: the incoming message of every round is observable by the acting
agent — the seed is addressed to the first speaker Principal, every
round's message is addressed to a set containing the next speaker of the
rotation, and the `_observe` filter admits (news `[m]`, never empty) any
message whose `send_to` contains the viewer's name. -/
theorem C10_incoming_always_observable :
    (∀ idea : String, "Principal" ∈ (seedMsg idea).send_to) ∧
    (∀ (d : Debator) (m : Message), d.name ∈ m.send_to → newsOf d m = [m]) ∧
    (∀ (v : Variant) (gen : Gen) (ev : Evidence) (idea : String) (n i : Nat)
        (h : i < (sessionCore v gen ev idea n).2.1.length),
        rotationOrder.getD ((i + 1) % 3) "" ∈
          ((sessionCore v gen ev idea n).2.1.get ⟨i, h⟩).send_to) := by
  refine ⟨?_, ?_, ?_⟩
  · intro idea
    simp [seedMsg]
  · intro d m hm
    unfold newsOf
    have h1 : (decide (m.cause_by ∈ watchedTags) || decide (d.name ∈ m.send_to)) = true := by
      simp [hm]
    have h2 : decide (observeKeep d.name m) = true := by
      simp [observeKeep, hm]
    simp [List.filter_cons, h1, h2]
  · intro v gen ev idea n i h
    cases hres : researchPhase v gen ev idea School Student Parent [] with
    | mk log0 res0 =>
      cases res0 with
      | error e =>
        have hs : sessionCore v gen ev idea n = (log0, [], [], [], Except.error e) := by
          unfold sessionCore
          rw [hres]
        exact absurd h (by rw [hs]; simp)
      | ok p =>
        obtain ⟨t0, rlog⟩ := p
        obtain ⟨hg, _, _, _, _, hn1, hn2, hn3⟩ := researchPhase_ok hres
        obtain ⟨lnew, mnew, dnew, res, heq, _, _, _, hmp, _⟩ :=
          debateRounds_spec v gen n t0 (seedMsg idea) 1 [] [] log0 hg
        have hs : sessionCore v gen ev idea n =
            (log0 ++ lnew, [] ++ mnew, [] ++ dnew, rlog, res) := by
          rw [sessionCore_eq_ok hres, heq]
        revert h
        rw [hs]
        simp only [List.nil_append]
        intro h
        have hmem := (hmp i h).2
        rw [cyc_initial hn1 hn2 hn3 (i + 1)] at hmem
        exact hmem

/-- Witness for C10: the seed is observable by School (Principal), and in
a concrete run round 0's message is addressed to the round-1 speaker. -/
theorem C10_incoming_always_observable_witness :
    newsOf School (seedMsg "T") = [seedMsg "T"] ∧
    ∃ h : 0 < (sessionCore Variant.main genOkW evW "T" 2).2.1.length,
      rotationOrder.getD ((0 + 1) % 3) "" ∈
        ((sessionCore Variant.main genOkW evW "T" 2).2.1.get ⟨0, h⟩).send_to :=
  ⟨C10_incoming_always_observable.2.1 School (seedMsg "T") (by decide),
   ⟨by decide, C10_incoming_always_observable.2.2 Variant.main genOkW evW "T" 2 0 (by decide)⟩⟩

/-- C8: evaluation of the code at the failing input (topic "T",
`n_round = 2`, generator constantly answering "ok"): the `idea` fields
of the two SpeakAloud prompts are `["T", "ok"]` — the second speaker's
prompt carries the first speaker's generated speech ("ok", the content
of round 1's message), not the session topic "T", because `_act` reads
`get_memories()[0].content` and a later speaker's first memory is the
previous speaker's message, not the seed. -/
theorem C8_idea_is_previous_speech :
    (sessionCore Variant.main genOkW evW "T" 2).1.filterMap Call.ideaArg = ["T", "ok"] ∧
    (sessionCore Variant.main genOkW evW "T" 2).2.1.map Message.content = ["ok", "ok"] ∧
    ("ok" : String) ≠ "T" :=
  ⟨by decide, by decide, by decide⟩

/-- C5: if the research phase succeeds, the first `k - 1` rounds succeed
and the Content Generator fails in round `k` (1 ≤ k ≤ n), then the
collected message list holds exactly `k - 1` completed entries, the
failure propagates out of both session entry points, no Evaluator or
Advisor call is ever issued, and exactly `k` SpeakAloud calls were made
(no retry, no skipped turn). -/
theorem C5_generation_failure_fatal (v : Variant) (gen : Gen) (ev : Evidence)
    (idea : String) (inv : Float) (n k : Nat) (e : GErr)
    (log0 log1 log2 : List Call) (t0 t1 : Triple) (m1 : Message)
    (msgs1 : List Message) (dlog1 : List LogEntry) (rlog : List (String × String))
    (hk1 : 1 ≤ k) (hkn : k ≤ n)
    (hR : researchPhase v gen ev idea School Student Parent [] = (log0, Except.ok (t0, rlog)))
    (hPre : debateRounds v gen (k - 1) t0 (seedMsg idea) 1 [] [] log0 =
      (log1, msgs1, dlog1, Except.ok (t1, m1)))
    (hFail : debateStep v gen t1 m1 log1 = (log2, Except.error e)) :
    msgs1.length = k - 1 ∧
    sessionCore v gen ev idea n = (log2, msgs1, dlog1, rlog, Except.error e) ∧
    (v = Variant.main → debate gen ev idea inv n = (log2, Except.error e)) ∧
    (v = Variant.streamlit → run_debate gen ev idea n = (log2, Except.error e)) ∧
    (∀ c ∈ log2, c.isAggregator = false) ∧
    (log2.filter Call.isSpeak).length = k := by
  obtain ⟨hg0, ⟨lr, hlr, hlrR⟩, _⟩ := researchPhase_ok hR
  obtain ⟨lnew, mnew, dnew, res, heq, hsp, hdl, hok, _, _⟩ :=
    debateRounds_spec v gen (k - 1) t0 (seedMsg idea) 1 [] [] log0 hg0
  rw [hPre] at heq
  simp only [List.nil_append, Prod.mk.injEq] at heq
  obtain ⟨hL1, hM1, hD1, hres⟩ := heq
  have hlen : mnew.length = k - 1 ∧ lnew.length = k - 1 := hok t1 m1 hres.symm
  have hmsgs1len : msgs1.length = k - 1 := by rw [hM1]; exact hlen.1
  have hn : (k - 1) + ((n - k) + 1) = n := by omega
  have hcore : debateRounds v gen n t0 (seedMsg idea) 1 [] [] log0 =
      (log2, msgs1, dlog1, Except.error e) := by
    rw [← hn, debateRounds_split, hPre]
    show debateRounds v gen ((n - k) + 1) t1 m1 (1 + (k - 1)) msgs1 dlog1 log1 =
      (log2, msgs1, dlog1, Except.error e)
    rw [debateRounds_succ_error hFail]
  have hsess : sessionCore v gen ev idea n = (log2, msgs1, dlog1, rlog, Except.error e) := by
    rw [sessionCore_eq_ok hR, hcore]
  have hlog2 : log2 = log1 ++ [actCall (observeD t1.1 m1)] := debateStep_error hFail
  have hmem : ∀ c ∈ log2, c.isSpeak = true ∨ c.isResearchReq = true := by
    intro c hc
    rw [hlog2, hL1, hlr] at hc
    simp only [List.nil_append, List.append_assoc, List.mem_append] at hc
    rcases hc with hc | hc | hc
    · exact Or.inr (hlrR c hc)
    · exact Or.inl (hsp c hc)
    · simp only [List.mem_singleton] at hc
      subst hc
      exact Or.inl rfl
  refine ⟨hmsgs1len, hsess, ?_, ?_, ?_, ?_⟩
  · intro hv
    subst hv
    unfold debate
    rw [hsess]
  · intro hv
    subst hv
    unfold run_debate
    rw [hsess]
  · intro c hc
    rcases hmem c hc with hcs | hcr
    · exact isSpeak_not_agg hcs
    · exact isResearchReq_not_agg hcr
  · rw [hlog2, hL1, hlr]
    simp only [List.nil_append]
    rw [List.filter_append, List.filter_append]
    have hA : lr.filter Call.isSpeak = [] :=
      List.filter_eq_nil_iff.mpr (fun c hc => by
        simp [isResearchReq_not_speak (hlrR c hc)])
    have hB : lnew.filter Call.isSpeak = lnew := List.filter_eq_self.mpr hsp
    have hCs : Call.isSpeak (actCall (observeD t1.1 m1)) = true := rfl
    rw [hA, hB]
    simp only [List.filter_cons, hCs, if_true, List.filter_nil, List.nil_append,
      List.length_append, List.length_cons, List.length_nil]
    omega

/-- Mock Content Generator that answers the three research queries of
the session on topic "T" and fails on every other prompt (in particular
on every SpeakAloud prompt). -/
def genFailW : Gen := fun p =>
  if p = (Call.requestResearch "Principal" "School" "T").prompt Variant.main ∨
      p = (Call.requestResearch "John" "Student" "T").prompt Variant.main ∨
      p = (Call.requestResearch "Mom" "Parent" "T").prompt Variant.main
  then Except.ok "ok" else Except.error "boom"

/-- Witness for C5: with `genFailW` the generator fails in round 1 of a
1-round session; the failure propagates out of `debate`, no aggregator
call was issued, and exactly one SpeakAloud attempt was made. -/
theorem C5_generation_failure_fatal_witness :
    ∃ L : List Call, debate genFailW evW "T" 3.0 1 = (L, Except.error "boom") ∧
      (∀ c ∈ L, c.isAggregator = false) ∧ (L.filter Call.isSpeak).length = 1 := by
  have h := C5_generation_failure_fatal Variant.main genFailW evW "T" 3.0 1 1 "boom"
    _ _ _ _ _ _ _ _ _ (by decide) (by decide) rfl rfl rfl
  exact ⟨_, h.2.2.1 rfl, h.2.2.2.2.1, h.2.2.2.2.2⟩

/-- C7: every successful `run_debate` returns a debate log with exactly
`n_round` entries, numbered 1..n in order, whose speakers and contents
are exactly those of the collected messages; the Evaluator is invoked
exactly once, on all messages concatenated in order as
`speaker: content` blocks; and the Advisor is invoked exactly once, on
the topic and exactly the Evaluator's output. -/
theorem C7_aggregation_pipeline (gen : Gen) (ev : Evidence) (idea : String) (n : Nat)
    (log : List Call) (dlog : List LogEntry) (evaluation advice : String)
    (rlog : List (String × String))
    (h : run_debate gen ev idea n = (log, Except.ok (dlog, evaluation, rlog, advice))) :
    dlog.length = n ∧
    (sessionCore Variant.streamlit gen ev idea n).2.1.length = n ∧
    dlog.map LogEntry.round = List.range' 1 n ∧
    dlog.map LogEntry.speaker =
      (sessionCore Variant.streamlit gen ev idea n).2.1.map Message.sent_from ∧
    dlog.map LogEntry.content =
      (sessionCore Variant.streamlit gen ev idea n).2.1.map Message.content ∧
    log.filter Call.isEval =
      [Call.evaluate idea (evaluateContent (sessionCore Variant.streamlit gen ev idea n).2.1)] ∧
    log.filter Call.isAdvise = [Call.advise idea evaluation] ∧
    gen ((Call.evaluate idea
        (evaluateContent (sessionCore Variant.streamlit gen ev idea n).2.1)).prompt
      Variant.streamlit) = Except.ok evaluation := by
  unfold run_debate at h
  split at h
  · rename_i log1 msgs1 dlog1 rlog1 pay heqS
    split at h
    · simp at h
    · rename_i evaluation1 heval
      split at h
      · simp at h
      · rename_i advice1 hadv
        simp only [Prod.mk.injEq, Except.ok.injEq] at h
        obtain ⟨hlog, hd, hev, hrl, had⟩ := h
        subst hlog
        subst hd
        subst hev
        subst hrl
        subst had
        cases hres : researchPhase Variant.streamlit gen ev idea School Student Parent [] with
        | mk log0 res0 =>
          cases res0 with
          | error e0 =>
            have hs : sessionCore Variant.streamlit gen ev idea n =
                (log0, [], [], [], Except.error e0) := by
              unfold sessionCore
              rw [hres]
            rw [hs] at heqS
            simp at heqS
          | ok p0 =>
            obtain ⟨t0, rlog0⟩ := p0
            obtain ⟨hg0, ⟨lr, hlr, hlrR⟩, _, _, _, hn1, hn2, hn3⟩ := researchPhase_ok hres
            obtain ⟨lnew, mnew, dnew, res, heq, hsp, hdl, hok, hmp, hdp⟩ :=
              debateRounds_spec Variant.streamlit gen n t0 (seedMsg idea) 1 [] [] log0 hg0
            have hs : sessionCore Variant.streamlit gen ev idea n =
                (log0 ++ lnew, [] ++ mnew, [] ++ dnew, rlog0, res) := by
              rw [sessionCore_eq_ok hres, heq]
            rw [hs] at heqS
            simp only [List.nil_append, Prod.mk.injEq] at heqS
            obtain ⟨hL1, hM1, hD1, hRL, hres1⟩ := heqS
            subst hL1
            subst hM1
            subst hD1
            subst hRL
            obtain ⟨tp, mp⟩ := pay
            have hlen : mnew.length = n ∧ lnew.length = n := hok tp mp hres1
            have hdlen : dnew.length = mnew.length := hdl
            rw [hs]
            dsimp only
            simp only [List.nil_append]
            have hmnew : mnew.length = n := hlen.1
            have hdn : dnew.length = n := by rw [hdlen, hmnew]
            refine ⟨hdn, hmnew, ?_, ?_, ?_, ?_, ?_, heval⟩
            · refine List.ext_get ?_ ?_
              · simp [hdn, List.length_range']
              · intro j h1 h2
                rw [List.get_map]
                have hjd : j < dnew.length := by simpa using h1
                have hjm : j < mnew.length := by rw [hmnew]; rw [hdn] at hjd; omega
                rw [(hdp j hjd hjm).1, List.get_range']
                omega
            · refine List.ext_get ?_ ?_
              · simp [hdn, hmnew]
              · intro j h1 h2
                rw [List.get_map, List.get_map]
                have hjd : j < dnew.length := by simpa using h1
                have hjm : j < mnew.length := by simpa using h2
                rw [(hdp j hjd hjm).2.1, (hmp j hjm).1]
            · refine List.ext_get ?_ ?_
              · simp [hdn, hmnew]
              · intro j h1 h2
                rw [List.get_map, List.get_map]
                have hjd : j < dnew.length := by simpa using h1
                have hjm : j < mnew.length := by simpa using h2
                exact (hdp j hjd hjm).2.2
            · rw [hlr]
              simp only [List.nil_append]
              rw [List.filter_append, List.filter_append, List.filter_append]
              have hA : lr.filter Call.isEval = [] :=
                List.filter_eq_nil_iff.mpr (fun c hc => by
                  simp [isResearchReq_not_eval (hlrR c hc)])
              have hB : lnew.filter Call.isEval = [] :=
                List.filter_eq_nil_iff.mpr (fun c hc => by
                  simp [isSpeak_not_eval (hsp c hc)])
              rw [hA, hB]
              rfl
            · rw [hlr]
              simp only [List.nil_append]
              rw [List.filter_append, List.filter_append, List.filter_append]
              have hA : lr.filter Call.isAdvise = [] :=
                List.filter_eq_nil_iff.mpr (fun c hc => by
                  simp [isResearchReq_not_advise (hlrR c hc)])
              have hB : lnew.filter Call.isAdvise = [] :=
                List.filter_eq_nil_iff.mpr (fun c hc => by
                  simp [isSpeak_not_advise (hsp c hc)])
              rw [hA, hB]
              rfl
  · simp at h

/-- Witness for C7: a concrete successful two-round run satisfies the
aggregation contract. -/
theorem C7_aggregation_pipeline_witness :
    ∃ (log : List Call) (dlog : List LogEntry) (evaluation advice : String)
      (rlog : List (String × String)),
      run_debate genOkW evW "T" 2 = (log, Except.ok (dlog, evaluation, rlog, advice)) ∧
      dlog.length = 2 ∧ dlog.map LogEntry.round = List.range' 1 2 ∧
      log.filter Call.isAdvise = [Call.advise "T" evaluation] := by
  have h := C7_aggregation_pipeline genOkW evW "T" 2 _ _ _ _ _ rfl
  exact ⟨_, _, _, _, _, rfl, h.1, h.2.2.1, h.2.2.2.2.2.2.1⟩

end Debate

